import Mathlib

/-!
Shallow embedding of the `virtualmeet` telemedicine web application
(`src/app.py`) and verification of its specification.

The application keeps three MongoDB collections — `users`, `doctors`,
`bookings` — modelled here as lists in insertion order (`insert_one`
appends, `find_one` returns the first match in natural order).  The
Flask request handlers `signup`, `login`, `doctor_form` and `book`
become pure state-transition functions on a `DB` record; the ambient
session becomes an explicit `Option Session` argument.

External collaborators are parameters of the model:
  * `werkzeug.security.generate_password_hash` / `check_password_hash`
    become an abstract pair `(hashF, checkF)`; theorems that need the
    hash to behave like a real salted hash assume
    `∀ a b, checkF (hashF a) b = true ↔ b = a`.
  * the SMTP transport (`smtplib.SMTP` connect / starttls / login /
    send_message, which either completes or raises) becomes a function
    `Transport := EmailMsg → Except String Unit`.
  * `os.getenv` for the two mail settings becomes a `Config` record;
    an unset variable is modelled as `""` (both are falsy in the
    Python guard `if not SENDER_EMAIL or not SENDER_PASSWORD`).
  * `uuid.uuid4().hex` and `datetime.datetime.now().strftime(...)`
    become explicit string arguments of `book`.

Python's `str.strip()` and `str.split(",")` are modelled from scratch
on `List Char` (`trimChars`, `splitComma`) so that their interaction
can be proved by list induction.
-/

namespace Virtualmeet

/-! ### Python string primitives -/

/-- Python `str.strip()` removes leading/trailing whitespace; we use
Lean's `Char.isWhitespace` (space, tab, CR, LF) for the whitespace set. -/
def isSpace (c : Char) : Bool := c.isWhitespace

/-- Drop trailing whitespace characters. -/
def dropTrailing (cs : List Char) : List Char :=
  (cs.reverse.dropWhile isSpace).reverse

/-- Python `str.strip()` on a character list. -/
def trimChars (cs : List Char) : List Char :=
  dropTrailing (cs.dropWhile isSpace)

/-- Python `str.strip()`. -/
def pyStrip (s : String) : String := ⟨trimChars s.data⟩

/-- Python `str.split(",")`: split on every comma; `"".split(",") == [""]`. -/
def splitComma : List Char → List (List Char)
  | [] => [[]]
  | c :: cs =>
    if c = ',' then [] :: splitComma cs
    else
      match splitComma cs with
      | [] => [[c]]
      | s :: ss => (c :: s) :: ss

/-- Line 112 of `app.py`:
`[slot.strip() for slot in slots.split(",") if slot.strip()]` —
a comprehension that strips each segment and keeps it only when the
stripped segment is truthy (non-empty). -/
def parseSlots (s : String) : List String :=
  (splitComma s.data).filterMap (fun seg =>
    let t := trimChars seg
    if t.isEmpty then none else some ⟨t⟩)

/-- Modelled from the spec wording of §4.2: "split on comma, trim
whitespace, drop empty segments, preserve order, do not deduplicate" —
a map of the trim over the comma-split followed by a filter of the
empties.  To be compared with `parseSlots`, the comprehension taken
from the source. -/
def specSlotsOfCsv (s : String) : List String :=
  (((splitComma s.data).map trimChars).filter (fun t => !t.isEmpty)).map
    (fun t => ⟨t⟩)

/-! ### Data model -/

/-- A document of the `users` collection (lines 46–51). -/
structure User where
  name : String
  email : String
  /-- stored password hash (`generate_password_hash(password)`) -/
  password : String
  role : String
deriving DecidableEq

/-- A document of the `doctors` collection (lines 106–115). -/
structure DoctorProfile where
  email : String
  name : String
  specialization : String
  experience : String
  slots : List String
deriving DecidableEq

/-- A document of the `bookings` collection (lines 170–180). -/
structure Booking where
  doctor_email : String
  patient_email : String
  patient_name : String
  doctor_name : String
  specialization : String
  slot : String
  jitsi_link : String
  created_at : String
  status : String
deriving DecidableEq

/-- The three collections of the Mongo database, in natural
(insertion) order. -/
structure DB where
  users : List User
  doctors : List DoctorProfile
  bookings : List Booking
deriving DecidableEq

/-- The Flask session fields set at login (lines 71–74), minus the id. -/
structure Session where
  email : String
  name : String
  role : String
deriving DecidableEq

/-- `mongo.db.users.find_one({"email": email})`. -/
def findUser (us : List User) (email : String) : Option User :=
  us.find? (fun u => u.email == email)

/-- `mongo.db.doctors.find_one({"email": email})`. -/
def findDoctor (ds : List DoctorProfile) (email : String) :
    Option DoctorProfile :=
  ds.find? (fun d => d.email == email)

/-- `mongo.db.bookings.find_one({"doctor_email": ..., "slot": ...})`
(lines 158–161). -/
def findBookingPair (bs : List Booking) (de slot : String) :
    Option Booking :=
  bs.find? (fun b => b.doctor_email == de && b.slot == slot)

/-- Number of bookings stored for a `(doctor_email, slot)` pair. -/
def countPair (bs : List Booking) (de slot : String) : Nat :=
  (bs.filter (fun b => b.doctor_email == de && b.slot == slot)).length

/-! ### Signup (lines 29–56, POST branch) -/

inductive SignupResult where
  /-- "All fields are required." (danger) -/
  | missingFields
  /-- "Email already registered. Please login." (warning) -/
  | alreadyRegistered
  /-- "Account created successfully! Please login." (success) -/
  | created
deriving DecidableEq

def signup (hashF : String → String) (db : DB)
    (nameRaw emailRaw passwordRaw roleRaw : String) : DB × SignupResult :=
  let name := pyStrip nameRaw
  let email := pyStrip emailRaw
  let password := pyStrip passwordRaw
  let role := pyStrip roleRaw
  if name = "" ∨ email = "" ∨ password = "" ∨ role = "" then
    (db, .missingFields)
  else
    match findUser db.users email with
    | some _ => (db, .alreadyRegistered)
    | none =>
      let u : User := ⟨name, email, hashF password, role⟩
      ({ db with users := db.users ++ [u] }, .created)

/-! ### Login (lines 59–81, POST branch) -/

inductive LoginResult where
  /-- "Please enter both email and password." (danger) -/
  | missingFields
  /-- session set to the user's fields; "Login successful!" (success) -/
  | success (sess : Session)
  /-- "Invalid email or password." (danger) — the single generic
  failure, used both when the email is unknown and when the password
  does not verify. -/
  | invalid
deriving DecidableEq

def login (checkF : String → String → Bool) (db : DB)
    (emailRaw passwordRaw : String) : LoginResult :=
  let email := pyStrip emailRaw
  let password := pyStrip passwordRaw
  if email = "" ∨ password = "" then .missingFields
  else
    match findUser db.users email with
    | some u =>
      if checkF u.password password then
        .success ⟨u.email, u.name, u.role⟩
      else .invalid
    | none => .invalid

/-! ### Doctor profile form (lines 91–119, POST branch) -/

inductive DoctorFormResult where
  /-- "Unauthorized access." (danger) -/
  | unauthorized
  /-- "All fields are required." (danger) -/
  | missingFields
  /-- "Doctor profile saved successfully!" (success) -/
  | saved
deriving DecidableEq

/-- `update_one({"email": email}, {"$set": {...}}, upsert=True)`:
update the first document matching the email (setting every field the
handler writes, the key `email` staying as it is), or insert a fresh
document when none matches. -/
def upsertDoctor (ds : List DoctorProfile) (email name spec exp : String)
    (slots : List String) : List DoctorProfile :=
  match ds with
  | [] => [⟨email, name, spec, exp, slots⟩]
  | d :: rest =>
    if d.email = email then ⟨d.email, name, spec, exp, slots⟩ :: rest
    else d :: upsertDoctor rest email name spec exp slots

def doctorForm (db : DB) (sess : Option Session)
    (specializationRaw experienceRaw slotsRaw : String) :
    DB × DoctorFormResult :=
  match sess with
  | none => (db, .unauthorized)
  | some s =>
    if s.role ≠ "doctor" then (db, .unauthorized)
    else
      let spec := pyStrip specializationRaw
      let exp := pyStrip experienceRaw
      let slots := pyStrip slotsRaw
      if spec = "" ∨ exp = "" ∨ slots = "" then (db, .missingFields)
      else
        ({ db with
            doctors := upsertDoctor db.doctors s.email s.name spec exp
              (parseSlots slots) },
          .saved)

/-! ### Email notifications (lines 194–256) -/

/-- Mail settings read from the environment (lines 20–21); an unset
variable is modelled as `""`. -/
structure Config where
  senderEmail : String
  senderPassword : String

/-- The message handed to `smtplib` (From, To, Subject, body). -/
structure EmailMsg where
  frm : String
  recipient : String
  subject : String
  body : String

/-- Outcome of the SMTP session for one message: `.ok` if
`send_message` completed, `.error` if any step raised. -/
def Transport := EmailMsg → Except String Unit

/-- `send_email` (lines 237–256): skip silently when the credentials
are not configured; otherwise run the SMTP session and re-raise its
exception on failure. -/
def sendEmail (cfg : Config) (tr : Transport) (recipient subject body : String) :
    Except String Unit :=
  if cfg.senderEmail = "" ∨ cfg.senderPassword = "" then .ok ()
  else tr ⟨cfg.senderEmail, recipient, subject, body⟩

/-- Body of the patient email (lines 201–213). -/
def bodyPatient (patient_name doctor_name specialization slot link : String) :
    String :=
  "\nHello " ++ patient_name ++ ",\n\nYour appointment with Dr. " ++
    doctor_name ++ " (" ++ specialization ++ ") is confirmed.\n\n" ++
    "🕒 Time Slot: " ++ slot ++ "\n🔗 Jitsi Meeting Link: " ++ link ++
    "\n\nPlease join the meeting 5 minutes before your scheduled time." ++
    "\n\nBest Regards,  \nTelemedicine Support\n"

/-- Body of the doctor email (lines 217–231). -/
def bodyDoctor (doctor_name patient_name patient_email slot link : String) :
    String :=
  "\nHello Dr. " ++ doctor_name ++
    ",\n\nYou have a new appointment scheduled with a patient.\n\n" ++
    "🕒 Time Slot: " ++ slot ++ "\n👤 Patient Name: " ++ patient_name ++
    "\n📧 Patient Email: " ++ patient_email ++
    "\n🔗 Jitsi Meeting Link: " ++ link ++
    "\n\nPlease be ready for the consultation at the scheduled time." ++
    "\n\nBest Regards,  \nTelemedicine Support\n"

/-- `send_booking_emails` (lines 194–234): the patient email first,
then the doctor email; a raise in the first send skips the second. -/
def sendBookingEmails (cfg : Config) (tr : Transport) (doctor : DoctorProfile)
    (patient_email patient_name slot link : String) : Except String Unit :=
  match sendEmail cfg tr patient_email
    ("Appointment Confirmed with Dr. " ++ doctor.name ++ " (" ++
      doctor.specialization ++ ")")
    (bodyPatient patient_name doctor.name doctor.specialization slot link) with
  | .error e => .error e
  | .ok _ =>
    sendEmail cfg tr doctor.email
      ("Upcoming Appointment - " ++ doctor.specialization)
      (bodyDoctor doctor.name patient_name patient_email slot link)

/-! ### Booking (lines 140–191, POST branch) -/

inductive BookResult where
  /-- "Only patients can book appointments." (danger) -/
  | notPatient
  /-- "Doctor not found." (danger) -/
  | doctorNotFound
  /-- "Please select a time slot." (danger) -/
  | emptySlot
  /-- "This time slot is already booked. Please choose another." (danger) -/
  | conflict
  /-- "Booking confirmed! Check your email for meeting details." (success) -/
  | confirmedOk
  /-- "Booking confirmed! But there was an issue sending email
  notifications." (warning) -/
  | confirmedEmailFailed
deriving DecidableEq

/-- The flash category attached to each outcome of `book`. -/
def BookResult.category : BookResult → String
  | .notPatient => "danger"
  | .doctorNotFound => "danger"
  | .emptySlot => "danger"
  | .conflict => "danger"
  | .confirmedOk => "success"
  | .confirmedEmailFailed => "warning"

/-- Did the booking get created (either confirmed outcome)? -/
def BookResult.isConfirmed : BookResult → Bool
  | .confirmedOk => true
  | .confirmedEmailFailed => true
  | _ => false

/-- The `try/except` around `send_booking_emails` (lines 182–187): a
completed send flashes success, a raised exception is caught and
flashes a warning; either way the handler redirects normally. -/
def bookOutcome : Except String Unit → BookResult
  | .ok _ => .confirmedOk
  | .error _ => .confirmedEmailFailed

/-- The booking document inserted at lines 170–180. -/
def mkBooking (de : String) (s : Session) (d : DoctorProfile)
    (slot uuidHex nowStr : String) : Booking :=
  ⟨de, s.email, s.name, d.name, d.specialization, slot,
    "https://meet.jit.si/" ++ ("consult-" ++ uuidHex), nowStr, "confirmed"⟩

def book (cfg : Config) (tr : Transport) (db : DB) (sess : Option Session)
    (doctor_email slotRaw uuidHex nowStr : String) : DB × BookResult :=
  match sess with
  | none => (db, .notPatient)
  | some s =>
    if s.role ≠ "patient" then (db, .notPatient)
    else
      match findDoctor db.doctors doctor_email with
      | none => (db, .doctorNotFound)
      | some d =>
        let slot := pyStrip slotRaw
        if slot = "" then (db, .emptySlot)
        else
          match findBookingPair db.bookings doctor_email slot with
          | some _ => (db, .conflict)
          | none =>
            let nb := mkBooking doctor_email s d slot uuidHex nowStr
            let db' := { db with bookings := db.bookings ++ [nb] }
            (db',
              bookOutcome (sendBookingEmails cfg tr d s.email s.name slot
                nb.jitsi_link))

/-! ### Lemmas about the string primitives -/

theorem splitComma_ne_nil (cs : List Char) : splitComma cs ≠ [] := by
  match cs with
  | [] => simp [splitComma]
  | c :: cs =>
    simp only [splitComma]
    by_cases h : c = ','
    · simp [h]
    · simp only [if_neg h]
      cases h2 : splitComma cs <;> simp

theorem isSpace_ne_comma {c : Char} (h : isSpace c = true) : ¬ c = ',' := by
  intro hc
  rw [hc] at h
  exact absurd h (by decide)

theorem trimChars_cons_space {c : Char} (h : isSpace c = true) (cs : List Char) :
    trimChars (c :: cs) = trimChars cs := by
  simp [trimChars, List.dropWhile_cons, h]

theorem splitComma_cons_ne {c : Char} (h : ¬ c = ',') {cs s : List Char}
    {ss : List (List Char)} (h2 : splitComma cs = s :: ss) :
    splitComma (c :: cs) = (c :: s) :: ss := by
  simp [splitComma, h, h2]

/-- The comma-split of a list, each segment stripped. -/
def segsTrim (cs : List Char) : List (List Char) :=
  (splitComma cs).map trimChars

theorem splitComma_head (cs : List Char) :
    ∃ s ss, splitComma cs = s :: ss := by
  cases h3 : splitComma cs with
  | nil => exact absurd h3 (splitComma_ne_nil cs)
  | cons s ss => exact ⟨s, ss, rfl⟩

theorem segsTrim_cons_space {c : Char} (h : isSpace c = true) (cs : List Char) :
    segsTrim (c :: cs) = segsTrim cs := by
  obtain ⟨s, ss, h2⟩ := splitComma_head cs
  rw [segsTrim, splitComma_cons_ne (isSpace_ne_comma h) h2, segsTrim, h2]
  simp [trimChars_cons_space h]

theorem segsTrim_dropWhile (cs : List Char) :
    segsTrim (cs.dropWhile isSpace) = segsTrim cs := by
  induction cs with
  | nil => rfl
  | cons c cs ih =>
    by_cases h : isSpace c
    · rw [List.dropWhile_cons, if_pos h, ih, segsTrim_cons_space h]
    · rw [List.dropWhile_cons, if_neg h]

/-- Apply `f` to the last element of a list. -/
def modLast (f : α → α) : List α → List α
  | [] => []
  | [a] => [f a]
  | a :: b :: l => a :: modLast f (b :: l)

theorem modLast_cons {f : α → α} {a : α} {l : List α} (h : l ≠ []) :
    modLast f (a :: l) = a :: modLast f l := by
  cases l with
  | nil => exact absurd rfl h
  | cons b l => rfl

theorem splitComma_noComma {ws : List Char} (h : ∀ c ∈ ws, ¬ c = ',') :
    splitComma ws = [ws] := by
  induction ws with
  | nil => rfl
  | cons c ws ih =>
    have hc : ¬ c = ',' := h c (List.mem_cons_self c ws)
    have ih2 := ih (fun d hd => h d (List.mem_cons_of_mem c hd))
    simp [splitComma, hc, ih2]

theorem splitComma_append_noComma {ws : List Char} (h : ∀ c ∈ ws, ¬ c = ',')
    (l : List Char) :
    splitComma (l ++ ws) = modLast (· ++ ws) (splitComma l) := by
  induction l with
  | nil =>
    rw [List.nil_append, splitComma_noComma h]
    rfl
  | cons c l ih =>
    by_cases hc : c = ','
    · subst hc
      rw [List.cons_append,
        show splitComma (',' :: (l ++ ws)) = [] :: splitComma (l ++ ws) by
          simp [splitComma],
        ih,
        show splitComma (',' :: l) = [] :: splitComma l by simp [splitComma],
        modLast_cons (splitComma_ne_nil l)]
    · obtain ⟨s, ss, h2⟩ := splitComma_head l
      cases ss with
      | nil =>
        have h3 : splitComma (l ++ ws) = [s ++ ws] := by
          rw [ih, h2]; rfl
        rw [List.cons_append, splitComma_cons_ne hc h3,
          splitComma_cons_ne hc h2]
        simp [modLast]
      | cons t ts =>
        have h3 : splitComma (l ++ ws) = s :: modLast (· ++ ws) (t :: ts) := by
          rw [ih, h2]
          rfl
        rw [List.cons_append, splitComma_cons_ne hc h3,
          splitComma_cons_ne hc h2]
        rfl

theorem dropWhile_append_allP {α : Type} {p : α → Bool} {a : List α}
    (h : ∀ c ∈ a, p c = true) (b : List α) :
    (a ++ b).dropWhile p = b.dropWhile p := by
  induction a with
  | nil => rfl
  | cons c a ih =>
    rw [List.cons_append, List.dropWhile_cons,
      if_pos (h c (List.mem_cons_self c a))]
    exact ih (fun d hd => h d (List.mem_cons_of_mem c hd))

theorem dropWhile_allP {α : Type} {p : α → Bool} {a : List α}
    (h : ∀ c ∈ a, p c = true) : a.dropWhile p = [] := by
  have h2 := dropWhile_append_allP h ([] : List α)
  simpa using h2

theorem dropTrailing_append_ws {ws : List Char}
    (h : ∀ c ∈ ws, isSpace c = true) (l : List Char) :
    dropTrailing (l ++ ws) = dropTrailing l := by
  unfold dropTrailing
  rw [List.reverse_append,
    dropWhile_append_allP (fun c hc => h c (List.mem_reverse.mp hc))]

theorem trimChars_append_ws {ws : List Char}
    (h : ∀ c ∈ ws, isSpace c = true) (l : List Char) :
    trimChars (l ++ ws) = trimChars l := by
  unfold trimChars
  rw [List.dropWhile_append]
  by_cases he : (l.dropWhile isSpace).isEmpty
  · have h3 : l.dropWhile isSpace = [] := by
      cases h4 : l.dropWhile isSpace with
      | nil => rfl
      | cons x xs => rw [h4] at he; simp at he
    rw [if_pos he, dropWhile_allP h, h3]
  · rw [if_neg he, dropTrailing_append_ws h]

theorem map_trim_modLast {ws : List Char}
    (h : ∀ c ∈ ws, isSpace c = true) (L : List (List Char)) :
    (modLast (· ++ ws) L).map trimChars = L.map trimChars := by
  induction L with
  | nil => rfl
  | cons a L ih =>
    cases L with
    | nil => simp [modLast, trimChars_append_ws h]
    | cons b L' =>
      rw [modLast_cons (by simp), List.map_cons, List.map_cons, ih]

theorem segsTrim_dropTrailing (cs : List Char) :
    segsTrim (dropTrailing cs) = segsTrim cs := by
  have hws : ∀ c ∈ (cs.reverse.takeWhile isSpace).reverse, isSpace c = true :=
    fun c hc => List.mem_takeWhile_imp (List.mem_reverse.mp hc)
  have hdecomp :
      dropTrailing cs ++ (cs.reverse.takeWhile isSpace).reverse = cs := by
    unfold dropTrailing
    rw [← List.reverse_append, List.takeWhile_append_dropWhile,
      List.reverse_reverse]
  calc segsTrim (dropTrailing cs)
      = (modLast (· ++ (cs.reverse.takeWhile isSpace).reverse)
          (splitComma (dropTrailing cs))).map trimChars :=
        (map_trim_modLast hws _).symm
    _ = (splitComma
          (dropTrailing cs ++ (cs.reverse.takeWhile isSpace).reverse)).map
          trimChars := by
        rw [splitComma_append_noComma
          (fun c hc => isSpace_ne_comma (hws c hc))]
    _ = segsTrim cs := by rw [hdecomp]; rfl

theorem segsTrim_trim (cs : List Char) :
    segsTrim (trimChars cs) = segsTrim cs := by
  rw [trimChars, segsTrim_dropTrailing, segsTrim_dropWhile]

theorem parseSlots_eq_segs (s : String) :
    parseSlots s = (segsTrim s.data).filterMap
      (fun t => if t.isEmpty then none else some ⟨t⟩) := by
  unfold parseSlots segsTrim
  rw [List.filterMap_map]
  rfl

/-- Stripping the whole CSV string first (line 100 of `app.py`) does not
change the parsed slot list. -/
theorem parseSlots_pyStrip (s : String) :
    parseSlots (pyStrip s) = parseSlots s := by
  rw [parseSlots_eq_segs, parseSlots_eq_segs]
  have hd : (pyStrip s).data = trimChars s.data := rfl
  rw [hd, segsTrim_trim]

theorem filterMap_trim_eq (L : List (List Char)) :
    L.filterMap (fun seg =>
      let t := trimChars seg
      if t.isEmpty then none else some (⟨t⟩ : String)) =
    ((L.map trimChars).filter (fun t => !t.isEmpty)).map
      (fun t => (⟨t⟩ : String)) := by
  induction L with
  | nil => rfl
  | cons a L ih =>
    by_cases h : (trimChars a).isEmpty
    · simp only [List.filterMap_cons, List.map_cons, List.filter_cons, h,
        if_pos, Bool.not_true, ih]
      rfl
    · simp only [List.filterMap_cons, List.map_cons, List.filter_cons, h,
        Bool.not_false, ih]
      rfl

/-- The comprehension of line 112 agrees with the spec's description of
the slot parsing. -/
theorem parseSlots_eq_specSlots (s : String) :
    parseSlots s = specSlotsOfCsv s := by
  rw [parseSlots, specSlotsOfCsv, filterMap_trim_eq]

/-! ### Lemmas about the collections and handlers -/

theorem findDoctor_upsert (ds : List DoctorProfile) (email n sp ex : String)
    (slots : List String) :
    findDoctor (upsertDoctor ds email n sp ex slots) email =
      some ⟨email, n, sp, ex, slots⟩ := by
  induction ds with
  | nil => simp [upsertDoctor, findDoctor, List.find?]
  | cons d rest ih =>
    by_cases h : d.email = email
    · simp [upsertDoctor, h, findDoctor, List.find?]
    · simp only [upsertDoctor, if_neg h, findDoctor] at ih ⊢
      rw [List.find?_cons_of_neg _ (by simp [h])]
      exact ih

/-- The profile form touches only the `doctors` collection: `users` and
`bookings` come out unchanged on every control path. -/
theorem doctorForm_frame (db : DB) (sess : Option Session)
    (sp ex sl : String) :
    (doctorForm db sess sp ex sl).1.users = db.users ∧
    (doctorForm db sess sp ex sl).1.bookings = db.bookings := by
  unfold doctorForm
  cases sess with
  | none => exact ⟨rfl, rfl⟩
  | some s =>
    by_cases h : s.role ≠ "doctor"
    · simp [h]
    · simp only [if_neg h]
      by_cases h2 : pyStrip sp = "" ∨ pyStrip ex = "" ∨ pyStrip sl = ""
      · simp [h2]
      · simp [h2]

theorem findBookingPair_append_none {bs : List Booking} {de slot : String}
    (h : findBookingPair bs de slot = none) (bs₂ : List Booking) :
    findBookingPair (bs ++ bs₂) de slot = findBookingPair bs₂ de slot := by
  unfold findBookingPair at h ⊢
  rw [List.find?_append, h]
  rfl

theorem findBookingPair_insert {bs : List Booking} {de slot : String}
    (h : findBookingPair bs de slot = none) (s : Session) (d : DoctorProfile)
    (u t : String) :
    findBookingPair (bs ++ [mkBooking de s d slot u t]) de slot =
      some (mkBooking de s d slot u t) := by
  rw [findBookingPair_append_none h]
  simp [findBookingPair, List.find?, mkBooking]

theorem countPair_append (bs bs₂ : List Booking) (de slot : String) :
    countPair (bs ++ bs₂) de slot =
      countPair bs de slot + countPair bs₂ de slot := by
  simp [countPair, List.filter_append]

theorem countPair_zero_of_none {bs : List Booking} {de slot : String}
    (h : findBookingPair bs de slot = none) :
    countPair bs de slot = 0 := by
  unfold findBookingPair at h
  unfold countPair
  rw [List.length_eq_zero, List.filter_eq_nil_iff]
  exact List.find?_eq_none.mp h

theorem countPair_mkBooking (de slot : String) (s : Session)
    (d : DoctorProfile) (u t : String) :
    countPair [mkBooking de s d slot u t] de slot = 1 := by
  simp [countPair, mkBooking]

/-- Unfolding of a successful `book` call: with a patient session, an
existing doctor, a non-empty slot and no prior booking on the pair, the
handler appends exactly the new booking document, and the result is the
try/except outcome of the notification step. -/
theorem book_insert (cfg : Config) (tr : Transport) {db : DB} {s : Session}
    {de slotRaw : String} (u t : String) {d : DoctorProfile}
    (hrole : s.role = "patient")
    (hdoc : findDoctor db.doctors de = some d)
    (hne : ¬ pyStrip slotRaw = "")
    (hfree : findBookingPair db.bookings de (pyStrip slotRaw) = none) :
    book cfg tr db (some s) de slotRaw u t =
      ({ db with bookings :=
          db.bookings ++ [mkBooking de s d (pyStrip slotRaw) u t] },
        bookOutcome (sendBookingEmails cfg tr d s.email s.name
          (pyStrip slotRaw)
          (mkBooking de s d (pyStrip slotRaw) u t).jitsi_link)) := by
  simp [book, hrole, hdoc, hne, hfree]

/-- Unfolding of a conflicting `book` call: any existing record on the
`(doctor_email, slot)` pair makes the handler flash the conflict and
leave the database untouched. -/
theorem book_conflict (cfg : Config) (tr : Transport) {db : DB} {s : Session}
    {de slotRaw : String} (u t : String) {d : DoctorProfile} {b : Booking}
    (hrole : s.role = "patient")
    (hdoc : findDoctor db.doctors de = some d)
    (hne : ¬ pyStrip slotRaw = "")
    (hbusy : findBookingPair db.bookings de (pyStrip slotRaw) = some b) :
    book cfg tr db (some s) de slotRaw u t = (db, .conflict) := by
  simp [book, hrole, hdoc, hne, hbusy]

theorem bookOutcome_confirmed (r : Except String Unit) :
    (bookOutcome r).isConfirmed = true := by
  cases r <;> rfl

theorem bookOutcome_ok_iff (r : Except String Unit) :
    bookOutcome r = .confirmedOk ↔ r = .ok () := by
  cases r with
  | ok u => cases u; simp [bookOutcome]
  | error e => simp [bookOutcome]

/-- With the relay credentials unconfigured, every send is silently
skipped and the notification step reports success. -/
theorem sendBookingEmails_unconfigured {cfg : Config} (tr : Transport)
    (d : DoctorProfile) (pe pn slot link : String)
    (h : cfg.senderEmail = "" ∨ cfg.senderPassword = "") :
    sendBookingEmails cfg tr d pe pn slot link = .ok () := by
  simp [sendBookingEmails, sendEmail, h]

/-! ### Concrete fixtures (used by the witnesses) -/

/-- Stand-in for `generate_password_hash` in concrete runs. -/
def hashId : String → String := fun p => p

/-- Stand-in for `check_password_hash` in concrete runs; together with
`hashId` it satisfies the ideal-hash assumption. -/
def checkEq : String → String → Bool := fun h p => h == p

theorem checkEq_ideal (a b : String) : checkEq (hashId a) b = true ↔ b = a := by
  simp only [checkEq, hashId, beq_iff_eq]
  exact eq_comm

def emptyDB : DB := ⟨[], [], []⟩

def drA : DoctorProfile := ⟨"d@x", "Dr A", "cardio", "5 years", ["9am", "10am"]⟩

/-- An existing booking whose `status` and `patient_email` differ from
anything this system would produce, to exhibit that the conflict check
ignores every field but the `(doctor_email, slot)` pair. -/
def bk0 : Booking :=
  ⟨"d@x", "p0@x", "P0", "Dr A", "cardio", "9am", "lnk", "t0", "cancelled"⟩

def db0 : DB := ⟨[], [drA], []⟩

def db1 : DB := ⟨[], [drA], [bk0]⟩

def pat1 : Session := ⟨"p1@x", "P1", "patient"⟩

def pat2 : Session := ⟨"p2@x", "P2", "patient"⟩

def docSess : Session := ⟨"d@x", "Dr A", "doctor"⟩

def cfgNone : Config := ⟨"", ""⟩

def cfgSome : Config := ⟨"s@x", "secret"⟩

def trOk : Transport := fun _ => .ok ()

def trFail : Transport := fun _ => .error "SMTPAuthenticationError"

/-! ### The claims -/

/-- Claim C1: at most one Booking exists per `(doctor_email, slot)` pair
under sequential calls — starting from a state with no booking on the
pair, two sequential `book` calls with the same doctor email and the
same slot string (both passing the doctor-exists and non-empty-slot
preconditions, with arbitrary patient sessions, mail configurations,
transports and generated identifiers, hence in either order) behave so
that exactly one call inserts: the first appends the single new
booking and confirms, the second returns Conflict and leaves the
database unchanged, and the pair ends with exactly one stored booking. -/
theorem c1_at_most_one_booking_per_pair
    (cfg₁ cfg₂ : Config) (tr₁ tr₂ : Transport) (db : DB) (s₁ s₂ : Session)
    (de slotRaw u₁ u₂ t₁ t₂ : String) (d : DoctorProfile)
    (hrole₁ : s₁.role = "patient") (hrole₂ : s₂.role = "patient")
    (hdoc : findDoctor db.doctors de = some d)
    (hne : ¬ pyStrip slotRaw = "")
    (hfree : findBookingPair db.bookings de (pyStrip slotRaw) = none) :
    (book cfg₁ tr₁ db (some s₁) de slotRaw u₁ t₁).2.isConfirmed = true ∧
    (book cfg₁ tr₁ db (some s₁) de slotRaw u₁ t₁).1.bookings =
      db.bookings ++ [mkBooking de s₁ d (pyStrip slotRaw) u₁ t₁] ∧
    book cfg₂ tr₂ (book cfg₁ tr₁ db (some s₁) de slotRaw u₁ t₁).1 (some s₂)
        de slotRaw u₂ t₂ =
      ((book cfg₁ tr₁ db (some s₁) de slotRaw u₁ t₁).1, .conflict) ∧
    countPair (book cfg₂ tr₂
        (book cfg₁ tr₁ db (some s₁) de slotRaw u₁ t₁).1 (some s₂) de slotRaw
        u₂ t₂).1.bookings de (pyStrip slotRaw) = 1 := by
  have h1 := book_insert cfg₁ tr₁ u₁ t₁ hrole₁ hdoc hne hfree
  have hdoc1 : findDoctor
      (book cfg₁ tr₁ db (some s₁) de slotRaw u₁ t₁).1.doctors de = some d := by
    rw [h1]; exact hdoc
  have hbusy : findBookingPair
      (book cfg₁ tr₁ db (some s₁) de slotRaw u₁ t₁).1.bookings de
      (pyStrip slotRaw) = some (mkBooking de s₁ d (pyStrip slotRaw) u₁ t₁) := by
    rw [h1]; exact findBookingPair_insert hfree s₁ d u₁ t₁
  have h2 := book_conflict cfg₂ tr₂ u₂ t₂ hrole₂ hdoc1 hne hbusy
  refine ⟨by rw [h1]; exact bookOutcome_confirmed _, by rw [h1], h2, ?_⟩
  rw [h2]
  show countPair (book cfg₁ tr₁ db (some s₁) de slotRaw u₁ t₁).1.bookings de
    (pyStrip slotRaw) = 1
  rw [h1]
  show countPair (db.bookings ++ [mkBooking de s₁ d (pyStrip slotRaw) u₁ t₁])
    de (pyStrip slotRaw) = 1
  rw [countPair_append, countPair_zero_of_none hfree,
    countPair_mkBooking]

/-- Claim C1, witness. -/
theorem c1_witness :
    (book cfgNone trOk db0 (some pat1) "d@x" "9am" "u1" "t1").2.isConfirmed
      = true ∧
    (book cfgNone trOk db0 (some pat1) "d@x" "9am" "u1" "t1").1.bookings =
      db0.bookings ++ [mkBooking "d@x" pat1 drA (pyStrip "9am") "u1" "t1"] ∧
    book cfgSome trFail
        (book cfgNone trOk db0 (some pat1) "d@x" "9am" "u1" "t1").1
        (some pat2) "d@x" "9am" "u2" "t2" =
      ((book cfgNone trOk db0 (some pat1) "d@x" "9am" "u1" "t1").1,
        .conflict) ∧
    countPair (book cfgSome trFail
        (book cfgNone trOk db0 (some pat1) "d@x" "9am" "u1" "t1").1
        (some pat2) "d@x" "9am" "u2" "t2").1.bookings "d@x" (pyStrip "9am")
      = 1 :=
  c1_at_most_one_booking_per_pair cfgNone cfgSome trOk trFail db0 pat1 pat2
    "d@x" "9am" "u1" "u2" "t1" "t2" drA rfl rfl (by decide) (by decide)
    (by decide)

/-- Claim C2: `doctor_form` replaces the whole stored profile for the
session's email (creating it if absent): whatever profile was stored
before — for any prior database — the profile found after the save is
entirely determined by the new submission (and the session's name),
with no field of the prior document surviving. -/
theorem c2_upsert_replaces_whole_profile (db : DB) (s : Session)
    (sp ex sl : String)
    (hrole : s.role = "doctor")
    (hsp : ¬ pyStrip sp = "") (hex : ¬ pyStrip ex = "")
    (hsl : ¬ pyStrip sl = "") :
    (doctorForm db (some s) sp ex sl).2 = .saved ∧
    findDoctor (doctorForm db (some s) sp ex sl).1.doctors s.email =
      some ⟨s.email, s.name, pyStrip sp, pyStrip ex,
        parseSlots (pyStrip sl)⟩ := by
  have hcond : ¬ (pyStrip sp = "" ∨ pyStrip ex = "" ∨ pyStrip sl = "") := by
    simp [hsp, hex, hsl]
  constructor
  · simp [doctorForm, hrole, hcond]
  · simp [doctorForm, hrole, hcond, findDoctor_upsert]

/-- Claim C2, witness: saving over an existing profile for `d@x`. -/
theorem c2_witness :
    (doctorForm db1 (some docSess) "neuro" "10 years" "2pm, 3pm").2
      = .saved ∧
    findDoctor
        (doctorForm db1 (some docSess) "neuro" "10 years" "2pm, 3pm").1.doctors
        docSess.email =
      some ⟨docSess.email, docSess.name, pyStrip "neuro",
        pyStrip "10 years", parseSlots (pyStrip "2pm, 3pm")⟩ :=
  c2_upsert_replaces_whole_profile db1 docSess "neuro" "10 years" "2pm, 3pm"
    rfl (by decide) (by decide) (by decide)

/-- Claim C3: for every input CSV string accepted by the form, the
stored slots list is the input split on commas with each segment
whitespace-trimmed, empty segments dropped, order preserved and
duplicates kept (`specSlotsOfCsv`, worded from the spec); in
particular `"9am, , 10am,10am"` yields exactly
`["9am", "10am", "10am"]`. -/
theorem c3_slot_parsing (db : DB) (s : Session) (sp ex slotsCsv : String)
    (hrole : s.role = "doctor")
    (hsp : ¬ pyStrip sp = "") (hex : ¬ pyStrip ex = "")
    (hsl : ¬ pyStrip slotsCsv = "") :
    (findDoctor (doctorForm db (some s) sp ex slotsCsv).1.doctors
        s.email).map DoctorProfile.slots = some (specSlotsOfCsv slotsCsv) ∧
    specSlotsOfCsv "9am, , 10am,10am" = ["9am", "10am", "10am"] := by
  have hcond : ¬ (pyStrip sp = "" ∨ pyStrip ex = "" ∨ pyStrip slotsCsv = "")
    := by simp [hsp, hex, hsl]
  constructor
  · simp [doctorForm, hrole, hcond, findDoctor_upsert]
    rw [parseSlots_pyStrip, parseSlots_eq_specSlots]
  · decide

/-- Claim C3, witness: the spec's own example CSV. -/
theorem c3_witness :
    (findDoctor (doctorForm db0 (some docSess) "cardio" "5 years"
        "9am, , 10am,10am").1.doctors docSess.email).map
      DoctorProfile.slots = some (specSlotsOfCsv "9am, , 10am,10am") ∧
    specSlotsOfCsv "9am, , 10am,10am" = ["9am", "10am", "10am"] :=
  c3_slot_parsing db0 docSess "cardio" "5 years" "9am, , 10am,10am" rfl
    (by decide) (by decide) (by decide)

/-- Claim C4, counterexample: register `e@x` with password `"a"`; the
candidate password `" a"` is a different string and — under the ideal
credential check — does not verify against the stored hash, yet
`login` succeeds, because both handlers strip surrounding whitespace
from the submitted password before hashing/checking.  This refutes
"authenticate(email, p) succeeds iff p equals p0" as stated. -/
theorem c4_counterexample :
    (signup hashId emptyDB "n" "e@x" "a" "patient").2 = .created ∧
    checkEq (hashId "a") " a" = false ∧
    login checkEq (signup hashId emptyDB "n" "e@x" "a" "patient").1 "e@x" " a"
      = .success ⟨"e@x", "n", "patient"⟩ ∧
    (" a" : String) ≠ "a" := by
  decide

/-- Claim C4 (amended): for an email registered exactly once with
password `p₀` (all signup preconditions holding) and an ideal salted
hash, `login` succeeds iff the candidate password equals `p₀` *after
stripping leading/trailing whitespace from both* — the handlers strip
the submitted passwords, so candidates differing from `p₀` only in
surrounding whitespace also authenticate. -/
theorem c4_credential_roundtrip_amended
    (hashF : String → String) (checkF : String → String → Bool)
    (hideal : ∀ a b, checkF (hashF a) b = true ↔ b = a)
    (db : DB) (n e p₀ r : String)
    (hn : ¬ pyStrip n = "") (he : ¬ pyStrip e = "")
    (hp : ¬ pyStrip p₀ = "") (hr : ¬ pyStrip r = "")
    (hnew : findUser db.users (pyStrip e) = none) :
    (signup hashF db n e p₀ r).2 = .created ∧
    ∀ p : String,
      (∃ sess, login checkF (signup hashF db n e p₀ r).1 e p =
        .success sess) ↔ pyStrip p = pyStrip p₀ := by
  have hcond :
      ¬ (pyStrip n = "" ∨ pyStrip e = "" ∨ pyStrip p₀ = "" ∨ pyStrip r = "")
    := by simp [hn, he, hp, hr]
  have hsign : signup hashF db n e p₀ r =
      ({ db with users := db.users ++
          [⟨pyStrip n, pyStrip e, hashF (pyStrip p₀), pyStrip r⟩] },
        .created) := by
    simp [signup, hcond, hnew]
  have hfind : findUser (signup hashF db n e p₀ r).1.users (pyStrip e) =
      some ⟨pyStrip n, pyStrip e, hashF (pyStrip p₀), pyStrip r⟩ := by
    rw [hsign]
    show findUser (db.users ++ [_]) (pyStrip e) = _
    unfold findUser at hnew ⊢
    rw [List.find?_append, hnew]
    simp [List.find?]
  refine ⟨by rw [hsign], ?_⟩
  intro p
  by_cases hpe : pyStrip p = ""
  · constructor
    · rintro ⟨sess, hs⟩
      simp [login, hpe] at hs
    · intro hq
      rw [hpe] at hq
      exact absurd hq.symm hp
  · have hcond2 : ¬ (pyStrip e = "" ∨ pyStrip p = "") := by simp [he, hpe]
    constructor
    · rintro ⟨sess, hs⟩
      simp only [login, hcond2, if_false, hfind] at hs
      by_cases hc : checkF (hashF (pyStrip p₀)) (pyStrip p) = true
      · exact (hideal _ _).mp hc
      · simp [hc] at hs
    · intro hq
      refine ⟨⟨pyStrip e, pyStrip n, pyStrip r⟩, ?_⟩
      simp [login, hcond2, hfind, (hideal (pyStrip p₀) (pyStrip p)).mpr hq]

/-- Claim C4 (amended), witness. -/
theorem c4_amended_witness :
    (signup hashId emptyDB "n" "e@x" "pw" "patient").2 = .created ∧
    ((∃ sess, login checkEq
        (signup hashId emptyDB "n" "e@x" "pw" "patient").1 "e@x" "pw" =
          .success sess) ↔ pyStrip "pw" = pyStrip "pw") := by
  have h := c4_credential_roundtrip_amended hashId checkEq checkEq_ideal
    emptyDB "n" "e@x" "pw" "patient" (by decide) (by decide) (by decide)
    (by decide) (by decide)
  exact ⟨h.1, h.2 "pw"⟩

/-- Claim C5: notification failure is non-fatal to the booking — under
the success preconditions, for every mail configuration and transport
outcome the handler persists exactly the new booking with status
"confirmed", the call returns normally with one of the two confirmed
results (never an escaped exception), the flash category is success or
warning, success happens exactly when the email step completed, and an
unconfigured relay is silently skipped (success). -/
theorem c5_notification_nonfatal
    (cfg : Config) (tr : Transport) (db : DB) (s : Session)
    (de slotRaw u t : String) (d : DoctorProfile)
    (hrole : s.role = "patient")
    (hdoc : findDoctor db.doctors de = some d)
    (hne : ¬ pyStrip slotRaw = "")
    (hfree : findBookingPair db.bookings de (pyStrip slotRaw) = none) :
    (book cfg tr db (some s) de slotRaw u t).1.bookings =
      db.bookings ++ [mkBooking de s d (pyStrip slotRaw) u t] ∧
    (mkBooking de s d (pyStrip slotRaw) u t).status = "confirmed" ∧
    ((book cfg tr db (some s) de slotRaw u t).2 = .confirmedOk ∨
      (book cfg tr db (some s) de slotRaw u t).2 = .confirmedEmailFailed) ∧
    ((book cfg tr db (some s) de slotRaw u t).2.category = "success" ∨
      (book cfg tr db (some s) de slotRaw u t).2.category = "warning") ∧
    ((book cfg tr db (some s) de slotRaw u t).2 = .confirmedOk ↔
      sendBookingEmails cfg tr d s.email s.name (pyStrip slotRaw)
        (mkBooking de s d (pyStrip slotRaw) u t).jitsi_link = .ok ()) ∧
    ((cfg.senderEmail = "" ∨ cfg.senderPassword = "") →
      (book cfg tr db (some s) de slotRaw u t).2 = .confirmedOk) := by
  have h1 := book_insert cfg tr u t hrole hdoc hne hfree
  refine ⟨by rw [h1], rfl, ?_, ?_, ?_, ?_⟩
  · rw [h1]
    cases sendBookingEmails cfg tr d s.email s.name (pyStrip slotRaw)
      (mkBooking de s d (pyStrip slotRaw) u t).jitsi_link
    · exact Or.inr rfl
    · exact Or.inl rfl
  · rw [h1]
    cases sendBookingEmails cfg tr d s.email s.name (pyStrip slotRaw)
      (mkBooking de s d (pyStrip slotRaw) u t).jitsi_link
    · exact Or.inr rfl
    · exact Or.inl rfl
  · rw [h1]
    exact bookOutcome_ok_iff _
  · intro hcfg
    rw [h1]
    show bookOutcome _ = _
    rw [sendBookingEmails_unconfigured tr d s.email s.name (pyStrip slotRaw)
      (mkBooking de s d (pyStrip slotRaw) u t).jitsi_link hcfg]
    rfl

/-- Claim C5, witness: a configured relay whose transport raises — the
booking persists and the handler returns the warning outcome. -/
theorem c5_witness :
    (book cfgSome trFail db0 (some pat1) "d@x" "9am" "u1" "t1").1.bookings =
      db0.bookings ++ [mkBooking "d@x" pat1 drA (pyStrip "9am") "u1" "t1"] ∧
    (mkBooking "d@x" pat1 drA (pyStrip "9am") "u1" "t1").status
      = "confirmed" ∧
    ((book cfgSome trFail db0 (some pat1) "d@x" "9am" "u1" "t1").2
        = .confirmedOk ∨
      (book cfgSome trFail db0 (some pat1) "d@x" "9am" "u1" "t1").2
        = .confirmedEmailFailed) ∧
    ((book cfgSome trFail db0 (some pat1) "d@x" "9am" "u1" "t1").2.category
        = "success" ∨
      (book cfgSome trFail db0 (some pat1) "d@x" "9am" "u1" "t1").2.category
        = "warning") ∧
    ((book cfgSome trFail db0 (some pat1) "d@x" "9am" "u1" "t1").2
        = .confirmedOk ↔
      sendBookingEmails cfgSome trFail drA pat1.email pat1.name
        (pyStrip "9am")
        (mkBooking "d@x" pat1 drA (pyStrip "9am") "u1" "t1").jitsi_link
        = .ok ()) ∧
    ((cfgSome.senderEmail = "" ∨ cfgSome.senderPassword = "") →
      (book cfgSome trFail db0 (some pat1) "d@x" "9am" "u1" "t1").2
        = .confirmedOk) :=
  c5_notification_nonfatal cfgSome trFail db0 pat1 "d@x" "9am" "u1" "t1" drA
    rfl (by decide) (by decide) (by decide)

theorem bookOutcome_ne_conflict (r : Except String Unit) :
    ¬ bookOutcome r = .conflict := by
  cases r <;> simp [bookOutcome]

/-- Claim C6: denormalization snapshot (frame property) — the profile
save writes only to the doctors collection: for every database, session
and submission, the users and bookings collections come out unchanged,
so every field of every Booking existing before the save (in
particular its `doctor_name` and `specialization`) is exactly as it
was; later profile edits never retroactively update existing bookings. -/
theorem c6_profile_save_frame (db : DB) (sess : Option Session)
    (sp ex sl : String) :
    (doctorForm db sess sp ex sl).1.users = db.users ∧
    (doctorForm db sess sp ex sl).1.bookings = db.bookings :=
  doctorForm_frame db sess sp ex sl

/-- Claim C7: uniform authentication failure — whenever the submitted
email is unregistered, or it is registered but the stored hash does
not verify the password, `login` returns the same single generic
`.invalid` result (a constructor carrying no data), so the two failure
causes are observationally indistinguishable and the response never
reveals whether the email exists. -/
theorem c7_uniform_invalid_credentials
    (checkF : String → String → Bool) (db : DB) (e p : String)
    (he : ¬ pyStrip e = "") (hp : ¬ pyStrip p = "")
    (hfail : findUser db.users (pyStrip e) = none ∨
      ∃ u, findUser db.users (pyStrip e) = some u ∧
        checkF u.password (pyStrip p) = false) :
    login checkF db e p = .invalid := by
  have hcond : ¬ (pyStrip e = "" ∨ pyStrip p = "") := by simp [he, hp]
  rcases hfail with h | ⟨u, hu, hc⟩
  · simp [login, hcond, h]
  · simp [login, hcond, hu, hc]

/-- A registered user, for the login witnesses. -/
def usrN : User := ⟨"n", "e@x", "pw", "patient"⟩

def dbU : DB := ⟨[usrN], [], []⟩

/-- Claim C7, witness: registered email, non-verifying password. -/
theorem c7_witness : login checkEq dbU "e@x" "wrong" = .invalid :=
  c7_uniform_invalid_credentials checkEq dbU "e@x" "wrong" (by decide)
    (by decide) (Or.inr ⟨usrN, by decide, by decide⟩)

/-- Claim C8: the profile's slots list is advisory only — `book` never
consults it: a booking attempt for an existing doctor with any
non-empty slot string, in particular one *not* present in the doctor's
current slots list, still succeeds and inserts (absent a prior booking
on the pair); and a profile save (e.g. one removing a slot) never
changes the bookings collection, so an existing Booking on a removed
slot is unaffected. -/
theorem c8_slots_advisory
    (cfg : Config) (tr : Transport) (db : DB) (s : Session)
    (de slotRaw u t : String) (d : DoctorProfile)
    (hrole : s.role = "patient")
    (hdoc : findDoctor db.doctors de = some d)
    (hnotin : pyStrip slotRaw ∉ d.slots)
    (hne : ¬ pyStrip slotRaw = "")
    (hfree : findBookingPair db.bookings de (pyStrip slotRaw) = none) :
    (book cfg tr db (some s) de slotRaw u t).2.isConfirmed = true ∧
    (book cfg tr db (some s) de slotRaw u t).1.bookings =
      db.bookings ++ [mkBooking de s d (pyStrip slotRaw) u t] ∧
    ∀ (db₂ : DB) (sess₂ : Option Session) (sp ex sl : String),
      (doctorForm db₂ sess₂ sp ex sl).1.bookings = db₂.bookings := by
  have h1 := book_insert cfg tr u t hrole hdoc hne hfree
  exact ⟨by rw [h1]; exact bookOutcome_confirmed _, by rw [h1],
    fun db₂ sess₂ sp ex sl => (doctorForm_frame db₂ sess₂ sp ex sl).2⟩

/-- Claim C8, witness: slot "7pm" is not in `drA`'s slots
`["9am", "10am"]`, yet the booking succeeds; and a later profile save
leaves the bookings as they were. -/
theorem c8_witness :
    (book cfgNone trOk db0 (some pat1) "d@x" "7pm" "u1" "t1").2.isConfirmed
      = true ∧
    (book cfgNone trOk db0 (some pat1) "d@x" "7pm" "u1" "t1").1.bookings =
      db0.bookings ++ [mkBooking "d@x" pat1 drA (pyStrip "7pm") "u1" "t1"] ∧
    (doctorForm db1 (some docSess) "neuro" "10 years" "2pm").1.bookings =
      db1.bookings := by
  have h := c8_slots_advisory cfgNone trOk db0 pat1 "d@x" "7pm" "u1" "t1"
    drA rfl (by decide) (by decide) (by decide) (by decide)
  exact ⟨h.1, h.2.1, h.2.2 db1 (some docSess) "neuro" "10 years" "2pm"⟩

/-- Claim C9, counterexample: a signup submission with role `"admin"`
(any non-empty string) is accepted and stored verbatim — the created
User's role is neither `"doctor"` nor `"patient"`, refuting the claim
that every created record has a role in that set. -/
theorem c9_counterexample :
    (signup hashId emptyDB "Mallory" "m@x" "pw" "admin").2 = .created ∧
    findUser (signup hashId emptyDB "Mallory" "m@x" "pw" "admin").1.users
      "m@x" = some ⟨"Mallory", "m@x", "pw", "admin"⟩ ∧
    ¬ ("admin" = "doctor" ∨ "admin" = "patient") := by
  decide

/-- Claim C9 (amended): every successful signup appends exactly one
User whose stored role is the submitted role string stripped of
surrounding whitespace, checked only to be non-empty — membership in
{"doctor", "patient"} is *not* enforced by the handler (it holds only
when the submission comes from the intended form). -/
theorem c9_role_stored_verbatim (hashF : String → String) (db : DB)
    (n e p r : String)
    (hc : (signup hashF db n e p r).2 = .created) :
    ∃ u : User, (signup hashF db n e p r).1.users = db.users ++ [u] ∧
      u.role = pyStrip r ∧ ¬ pyStrip r = "" := by
  by_cases hcond :
      pyStrip n = "" ∨ pyStrip e = "" ∨ pyStrip p = "" ∨ pyStrip r = ""
  · simp [signup, hcond] at hc
  · cases hfind : findUser db.users (pyStrip e) with
    | some u => simp [signup, hcond, hfind] at hc
    | none =>
      refine ⟨⟨pyStrip n, pyStrip e, hashF (pyStrip p), pyStrip r⟩, ?_, rfl,
        ?_⟩
      · simp [signup, hcond, hfind]
      · intro h
        exact hcond (Or.inr (Or.inr (Or.inr h)))

/-- Claim C9 (amended), witness. -/
theorem c9_witness :
    ∃ u : User, (signup hashId emptyDB "n" "e@x" "pw" "doctor").1.users =
      emptyDB.users ++ [u] ∧ u.role = pyStrip "doctor" ∧
      ¬ pyStrip "doctor" = "" :=
  c9_role_stored_verbatim hashId emptyDB "n" "e@x" "pw" "doctor" (by decide)

/-- Claim C10: the conflict check matches on the
`(doctor_email, slot)` pair only — given a patient session, an
existing doctor and a non-empty slot, the call conflicts exactly when
some stored booking has that doctor_email and that slot, regardless of
every other field of the record (status, patient_email, ...); a
conflict leaves the database unchanged.  The iff also gives that the
same slot string stays bookable under a doctor_email with no booking
on it. -/
theorem c10_conflict_checks_pair_only
    (cfg : Config) (tr : Transport) (db : DB) (s : Session)
    (de slotRaw u t : String) (d : DoctorProfile)
    (hrole : s.role = "patient")
    (hdoc : findDoctor db.doctors de = some d)
    (hne : ¬ pyStrip slotRaw = "") :
    ((book cfg tr db (some s) de slotRaw u t).2 = .conflict ↔
      ∃ b ∈ db.bookings, b.doctor_email = de ∧ b.slot = pyStrip slotRaw) ∧
    ((book cfg tr db (some s) de slotRaw u t).2 = .conflict →
      (book cfg tr db (some s) de slotRaw u t).1 = db) := by
  cases hfb : findBookingPair db.bookings de (pyStrip slotRaw) with
  | some b =>
    have h2 := book_conflict cfg tr u t hrole hdoc hne hfb
    have hmem : b ∈ db.bookings := List.mem_of_find?_eq_some hfb
    have hpred := List.find?_some hfb
    constructor
    · rw [h2]
      exact iff_of_true rfl ⟨b, hmem, by simpa using hpred⟩
    · intro _
      rw [h2]
  | none =>
    have h1 := book_insert cfg tr u t hrole hdoc hne hfb
    have hnc : ¬ (book cfg tr db (some s) de slotRaw u t).2 = .conflict := by
      intro hcon
      rw [h1] at hcon
      exact bookOutcome_ne_conflict _ hcon
    constructor
    · refine iff_of_false hnc ?_
      rintro ⟨b, hb, hde, hs⟩
      unfold findBookingPair at hfb
      exact List.find?_eq_none.mp hfb b hb (by simp [hde, hs])
    · intro hcon
      exact absurd hcon hnc

/-- Claim C10, witness: `bk0` (status "cancelled", another patient)
still blocks `(d@x, 9am)`, and the database is left unchanged. -/
theorem c10_witness :
    ((book cfgNone trOk db1 (some pat1) "d@x" "9am" "u1" "t1").2
        = .conflict ↔
      ∃ b ∈ db1.bookings, b.doctor_email = "d@x" ∧
        b.slot = pyStrip "9am") ∧
    ((book cfgNone trOk db1 (some pat1) "d@x" "9am" "u1" "t1").2
        = .conflict →
      (book cfgNone trOk db1 (some pat1) "d@x" "9am" "u1" "t1").1 = db1) :=
  c10_conflict_checks_pair_only cfgNone trOk db1 pat1 "d@x" "9am" "u1" "t1"
    drA rfl (by decide) (by decide)

end Virtualmeet
